import Mathlib

/-!
Verification of the biometric identity subsystem of the LifeXBackend
repository against its natural-language specification.

The development shallowly embeds the relevant Python functions:

* `users/biometric_utils.py`: `get_adaptive_threshold`, `encoding_to_json`,
  `json_to_encoding`, `validate_face_quality`, `perform_liveness_verification`
* `users/liveness_detection.py`: `LivenessDetector.detect_blink`,
  `LivenessDetector._detect_blink_pattern`
* `users/face_only_login.py`: `identify_user_by_face`
* `users/quick_face_login_views.py`: `IdentifyFaceView.post`,
  `ConfirmIdentityView.post` (session mint / confirm protocol)
* `users/biometric_serializers.py`: `BiometricRegistrationSerializer.create`,
  `ToggleFaceRecognitionSerializer.validate`,
  `BiometricVerificationSerializer.update`
* `users/models.py`: the `is_face_verified` / `face_recognition_enabled`
  flags of `BiometricData`

Floating-point values of the source are modelled by rationals; external
computer-vision primitives (face distance computation, per-frame blink,
movement and photo-attack detectors) are parameters of the embedding, and
Python exceptions raised by them are modelled with `Except String`.
-/

namespace LifeX

/-! ## Adaptive threshold policy (`biometric_utils.get_adaptive_threshold`) -/

/-- Embedding of `get_adaptive_threshold(user_count)`: stricter matching
threshold as the enrolled population grows. -/
def get_adaptive_threshold (user_count : ℕ) : ℚ :=
  if user_count < 10 then 0.6
  else if user_count < 100 then 0.55
  else if user_count < 1000 then 0.5
  else 0.45

/-! ## Encoding codec (`biometric_utils.encoding_to_json` / `json_to_encoding`) -/

/-- Model of a numpy ndarray holding a face embedding: the ordered list of
its float entries (floats modelled by rationals). -/
structure NDArray where
  data : List ℚ
deriving Repr

/-- Embedding of `encoding_to_json(encoding)`, which is `encoding.tolist()`:
the ordered list of the entries of the array. -/
def encoding_to_json (encoding : NDArray) : List ℚ :=
  encoding.data

/-- Embedding of `json_to_encoding(json_data)`, which is
`np.array(json_data)`: the array holding exactly the listed entries. -/
def json_to_encoding (json_data : List ℚ) : NDArray :=
  ⟨json_data⟩

/-! ## Biometric profile flags and their mutations

The two boolean flags of `users/models.py` `BiometricData` that the
face-login invariant concerns. -/

/-- The two flags of a `BiometricData` row that the invariant is about. -/
structure BiometricProfile where
  is_face_verified : Bool
  face_recognition_enabled : Bool
deriving Repr, DecidableEq

/-- Embedding of the profile created by
`BiometricRegistrationSerializer.create`: it sets
`is_face_verified=is_match` and `face_recognition_enabled=is_match`
(auto-enable when the live face matched the ID face; `is_match=True`
also covers the branch where the ID card had no face). -/
def register_profile (is_match : Bool) : BiometricProfile :=
  ⟨is_match, is_match⟩

/-- Modelled from the spec: the model method `enable_face_recognition`
is called by `ToggleFaceRecognitionView.post` but its body is not under
`src/` (only the caller is). Per spec section 3, the enable toggle turns
`face_recognition_enabled` on. -/
def enable_face_recognition (p : BiometricProfile) : BiometricProfile :=
  { p with face_recognition_enabled := true }

/-- Modelled from the spec: the model method `disable_face_recognition`
is called by `ToggleFaceRecognitionView.post` but its body is not under
`src/`. Per spec section 3, the disable toggle turns
`face_recognition_enabled` off. -/
def disable_face_recognition (p : BiometricProfile) : BiometricProfile :=
  { p with face_recognition_enabled := false }

/-- Embedding of the toggle operation: `ToggleFaceRecognitionSerializer.validate`
rejects `enable=True` when `is_face_verified` is false (the request fails
with a validation error and the profile is left unchanged); otherwise
`ToggleFaceRecognitionView.post` applies the corresponding model method. -/
def toggle_face_recognition (enable : Bool) (p : BiometricProfile) : BiometricProfile :=
  if enable && !p.is_face_verified then p
  else if enable then enable_face_recognition p
  else disable_face_recognition p

/-- Embedding of `BiometricVerificationSerializer.update` (staff
verification/rejection): it writes `is_face_verified := approved` and does
not touch `face_recognition_enabled`. -/
def staff_verify (approved : Bool) (p : BiometricProfile) : BiometricProfile :=
  { p with is_face_verified := approved }

/-- The mutation operations on an existing biometric profile. -/
inductive ProfileOp where
  | toggle (enable : Bool)
  | staffVerify (approved : Bool)
deriving Repr, DecidableEq

/-- Apply one profile mutation. -/
def apply_op : ProfileOp → BiometricProfile → BiometricProfile
  | .toggle e, p => toggle_face_recognition e p
  | .staffVerify a, p => staff_verify a p

/-- The spec invariant: `face_recognition_enabled` implies `is_face_verified`. -/
def ProfileInvariant (p : BiometricProfile) : Prop :=
  p.face_recognition_enabled = true → p.is_face_verified = true

/-! ## 1:N identifier (`face_only_login.identify_user_by_face`)

The probe encoding and the stored encodings only enter the algorithm
through the external library call `face_recognition.face_distance`
(via `compare_faces`); the embedding therefore abstracts them into a
distance function `dist : ℕ → ℚ` over enrolled user ids. -/

/-- One entry of the `matches` list built by `identify_user_by_face`:
user id, distance to the probe, and the `is_match` flag computed by
`compare_faces` as `distance <= tolerance`. -/
structure MatchEntry where
  user : ℕ
  distance : ℚ
  is_match : Bool
deriving Repr, DecidableEq

/-- The `matches` list as built by the loop over all enrolled profiles:
one entry per user, `is_match := distance <= tolerance`. -/
def mkMatches (dist : ℕ → ℚ) (users : List ℕ) (tolerance : ℚ) : List MatchEntry :=
  users.map (fun u => ⟨u, dist u, if dist u ≤ tolerance then true else false⟩)

/-- Embedding of `matches.sort(key=lambda x: x['distance'])` (stable
ascending sort by distance). -/
def sortMatches (l : List MatchEntry) : List MatchEntry :=
  l.insertionSort (fun a b => a.distance ≤ b.distance)

instance : IsTotal MatchEntry (fun a b : MatchEntry => a.distance ≤ b.distance) :=
  ⟨fun a b => le_total a.distance b.distance⟩

instance : IsTrans MatchEntry (fun a b : MatchEntry => a.distance ≤ b.distance) :=
  ⟨fun _ _ _ h1 h2 => le_trans h1 h2⟩

/-- Embedding of the decision part of `identify_user_by_face`: build the
match list, sort ascending by distance, then
  * best not a match (or no users): `(None, best distance or 1.0, top-3)`;
  * best a match but a second candidate lies within 0.1 of it:
    ambiguous, `(None, best distance, top-3)`;
  * otherwise: `(best user, best distance, top-3)`. -/
def identify_user_by_face (dist : ℕ → ℚ) (users : List ℕ) (tolerance : ℚ) :
    Option ℕ × ℚ × List MatchEntry :=
  let sorted := sortMatches (mkMatches dist users tolerance)
  match sorted with
  | [] => (none, 1, [])
  | best :: rest =>
    if best.is_match then
      match rest with
      | second :: _ =>
        if second.distance < best.distance + 0.1 then
          (none, best.distance, sorted.take 3)
        else
          (some best.user, best.distance, sorted.take 3)
      | [] => (some best.user, best.distance, sorted.take 3)
    else (none, best.distance, sorted.take 3)

/-! ## Identify endpoint (`quick_face_login_views.IdentifyFaceView.post`) -/

/-- Outcome of the identify endpoint: the two `cache.set` branches mint a
session token, the not-found branch returns a rejection with guidance. -/
inductive IdentifyOutcome where
  | identified (user : ℕ)
  | ambiguous (candidates : List ℕ)
  | notFound
deriving Repr, DecidableEq

/-- Embedding of the branch structure of `IdentifyFaceView.post` after
`identify_user_by_face(face_image)` (adaptive threshold over the enrolled
population): with `user is None`, the view treats the result as ambiguous
exactly when `len(all_matches) > 1 and all_matches[0].distance < 0.6`
(hard-coded 0.6), else as not found. -/
def identify_face_view (dist : ℕ → ℚ) (users : List ℕ) : IdentifyOutcome :=
  match identify_user_by_face dist users (get_adaptive_threshold users.length) with
  | (some u, _, _) => .identified u
  | (none, _, all_matches) =>
    match all_matches with
    | m0 :: _ :: _ =>
      if m0.distance < 0.6 then .ambiguous ((all_matches.take 3).map MatchEntry.user)
      else .notFound
    | _ => .notFound

/-- Whether the identify endpoint stored a session entry
(`cache.set(f'face_session_{token}', ...)`) for this outcome. -/
def mintsToken : IdentifyOutcome → Bool
  | .identified _ => true
  | .ambiguous _ => true
  | .notFound => false

/-- Concrete enrolled population for the no-match counterexample:
ten users, so the adaptive threshold is 0.55. -/
def users10 : List ℕ := [0, 1, 2, 3, 4, 5, 6, 7, 8, 9]

/-- Concrete probe distances for the no-match counterexample: every
distance exceeds the active threshold 0.55, but the two best are below
the hard-coded 0.6 of the view. -/
def dist10 : ℕ → ℚ :=
  fun u => if u = 0 then 0.58 else if u = 1 then 0.59 else 0.9

/-! ## Identification session protocol (`ConfirmIdentityView.post`) -/

/-- A session entry stored under `face_session_{token}`: either a single
resolved candidate with confidence, or a candidate list; both carry the
application-level expiry timestamp `expires = now + 60`. -/
inductive SessionData where
  | single (user_id : ℕ) (confidence : ℚ) (expires : ℚ)
  | multi (candidates : List ℕ) (expires : ℚ)
deriving Repr, DecidableEq

/-- The stored `expires` timestamp of a session entry. -/
def SessionData.expiresAt : SessionData → ℚ
  | .single _ _ e => e
  | .multi _ e => e

/-- The session cache, keyed by token. -/
def Store : Type := ℕ → Option SessionData

/-- Write a session entry (`cache.set`). -/
def cacheSet (s : Store) (k : ℕ) (v : SessionData) : Store :=
  fun t => if t = k then some v else s t

/-- Delete a session entry (`cache.delete`). -/
def cacheDelete (s : Store) (k : ℕ) : Store :=
  fun t => if t = k then none else s t

/-- Embedding of the `cache.set(f'face_session_{token}', {'user_id': ...,
'confidence': ..., 'expires': time.time() + 60}, timeout=60)` call of the
identified branch of `IdentifyFaceView.post`. -/
def mint_single (s : Store) (token : ℕ) (user_id : ℕ) (confidence : ℚ) (now : ℚ) : Store :=
  cacheSet s token (.single user_id confidence (now + 60))

/-- Embedding of the candidate-list `cache.set` of the ambiguous branch. -/
def mint_multi (s : Store) (token : ℕ) (candidates : List ℕ) (now : ℚ) : Store :=
  cacheSet s token (.multi candidates (now + 60))

/-- Responses of `ConfirmIdentityView.post` relevant to the session
protocol. `sessionExpired` covers both the missing-entry and the
past-expiry branches (both answer 401 with `expired: true`). -/
inductive ConfirmResponse where
  | sessionExpired
  | userNotFound
  | userIdMismatch
  | notInCandidates
  | rejected
  | inactive
  | success
deriving Repr, DecidableEq

/-- Embedding of `ConfirmIdentityView.post` (token and user id present):
look up the token, fail expired when absent or past `expires` (deleting
the stale entry in the second case), look up the user, check consistency
with the stored session, then consume the session: a rejection
(`confirmed=false`) deletes the entry and answers rejected; a
confirmation deletes the entry and answers success unless the account is
inactive (which answers 403 and leaves the entry). Returns the response
together with the resulting store. -/
def confirm_identity_view (store : Store) (now : ℚ) (token user_id : ℕ)
    (confirmed : Bool) (userExists userActive : ℕ → Bool) :
    ConfirmResponse × Store :=
  match store token with
  | none => (.sessionExpired, store)
  | some sd =>
    if sd.expiresAt < now then (.sessionExpired, cacheDelete store token)
    else if userExists user_id = false then (.userNotFound, store)
    else
      let consistent : Bool :=
        match sd with
        | .single uid _ _ => uid == user_id
        | .multi cands _ => cands.contains user_id
      let mismatch : ConfirmResponse :=
        match sd with
        | .single _ _ _ => .userIdMismatch
        | .multi _ _ => .notInCandidates
      if consistent = false then (mismatch, store)
      else if confirmed = false then (.rejected, cacheDelete store token)
      else if userActive user_id = false then (.inactive, store)
      else (.success, cacheDelete store token)

/-! ## Liveness verification (`biometric_utils.perform_liveness_verification`)

Frames are abstract (identified by naturals); the per-check computer
vision pipelines (`LivenessDetector.detect_blink`, `detect_head_movement`,
`detect_photo_attack`) are parameters returning either a boolean verdict
or a raised exception, modelled by `Except String Bool`. -/

/-- One entry of the `checks` dictionary: the `passed` flag, and the
error message when the check pipeline raised (stored by the handler as
`details = {'error': str(e)}` with `passed=False`). -/
structure CheckEntry where
  passed : Bool
  errorMsg : Option String
deriving Repr, DecidableEq

/-- The external per-check detector pipelines. -/
structure Detector where
  detect_blink : List ℕ → Except String Bool
  detect_head_movement : List ℕ → Except String Bool
  detect_photo_attack : ℕ → Except String Bool

/-- Run one check under the per-check `try/except` of
`perform_liveness_verification`: a pipeline exception is captured into
`passed=False` with the error detail. -/
def runCheck (r : Except String Bool) : CheckEntry :=
  match r with
  | .ok b => ⟨b, none⟩
  | .error e => ⟨false, some e⟩

/-- Embedding of the photo-attack block: sample first, middle and last
frame (Python indices `[0, len//2, -1]`, each kept when
`abs(idx) < len(frames)`), run the per-frame detector on each (an
exception in any iteration aborts the block), then majority vote
(`sum(results) > len(results)/2`). -/
def photo_attack_vote (d : ℕ → Except String Bool) (frames : List ℕ) :
    Except String Bool := do
  let n := frames.length
  let idxs : List ℤ := [0, (n / 2 : ℕ), -1]
  let checked := idxs.filter (fun i => i.natAbs < n)
  let results ← checked.mapM
    (fun i => d (frames.getD (if i < 0 then n - i.natAbs else i.natAbs) 0))
  pure (decide (results.length < 2 * results.countP (fun b => b)))

/-- Composite result dictionary of `perform_liveness_verification`. -/
structure LivenessResult where
  is_live : Bool
  confidence : ℚ
  blink : Option CheckEntry
  movement : Option CheckEntry
  photo_attack : Option CheckEntry
  errorMsg : Option String
deriving Repr

/-- The check entries present in the `checks` dictionary of a result. -/
def LivenessResult.entries (r : LivenessResult) : List CheckEntry :=
  [r.blink, r.movement, r.photo_attack].filterMap id

/-- Number of required checks recorded in a result. -/
def LivenessResult.totalRequired (r : LivenessResult) : ℕ :=
  r.entries.length

/-- Number of recorded required checks that passed. -/
def LivenessResult.passedRequired (r : LivenessResult) : ℕ :=
  r.entries.countP (fun e => e.passed)

/-- Embedding of `perform_liveness_verification(frames, require_blink,
require_movement, check_photo_attack)`: run each required check under its
own exception handler, then aggregate
`confidence = passed_checks / total_required` and
`is_live = (passed_checks == total_required)`; with no required check the
result is vacuously live with confidence 1.0. The outer handler never
fires (every branch returns), so `errorMsg` is always `none`. -/
def perform_liveness_verification (frames : List ℕ)
    (require_blink require_movement check_photo_attack : Bool)
    (d : Detector) : LivenessResult :=
  let blink := if require_blink then some (runCheck (d.detect_blink frames)) else none
  let movement :=
    if require_movement then some (runCheck (d.detect_head_movement frames)) else none
  let photo :=
    if check_photo_attack then
      some (runCheck (photo_attack_vote d.detect_photo_attack frames))
    else none
  let entries := [blink, movement, photo].filterMap id
  let total := entries.length
  let passed := entries.countP (fun e => e.passed)
  if 0 < total then
    ⟨passed == total, (passed : ℚ) / (total : ℚ), blink, movement, photo, none⟩
  else
    ⟨true, 1, blink, movement, photo, none⟩

/-! ## Blink detection (`liveness_detection.LivenessDetector.detect_blink`)

Per-frame landmark extraction is external: a frame either yields an
eye-aspect-ratio value or is skipped when no face is found, so the input
is the per-frame list of optional EAR values. -/

/-- Details dictionary of `detect_blink`: the error form for too few
valid frames, or the statistics form. -/
inductive BlinkDetails where
  | failure (msg : String)
  | stats (ear_values : List ℚ) (min_ear max_ear : ℚ) (blink_detected : Bool)
deriving Repr, DecidableEq

/-- Minimum of a list of rationals (Python `min`,0 for the empty list
which the source never reaches). -/
def listMin : List ℚ → ℚ
  | [] => 0
  | x :: xs => xs.foldl min x

/-- Maximum of a list of rationals (Python `max`). -/
def listMax : List ℚ → ℚ
  | [] => 0
  | x :: xs => xs.foldl max x

/-- Number of positions where consecutive entries of a boolean series
differ (the transition count of `_detect_blink_pattern`). -/
def countTransitions (l : List Bool) : ℕ :=
  (l.zip l.tail).countP (fun p => p.1 != p.2)

/-- Embedding of `LivenessDetector._detect_blink_pattern(ear_values)`:
no blink when `max - min < 0.05`; otherwise a blink iff the series
`EAR < 0.25` has at least 2 transitions. -/
def detect_blink_pattern (ear_values : List ℚ) : Bool :=
  if listMax ear_values - listMin ear_values < 0.05 then false
  else
    let below := ear_values.map (fun e => if e < (0.25 : ℚ) then true else false)
    decide (2 ≤ countTransitions below)

/-- Embedding of `LivenessDetector.detect_blink(frames)`: collect the EAR
of each frame in which a face was found; with fewer than 5 valid values
return `(False, {'error': ...})`, otherwise run the pattern detector and
return it with the statistics. -/
def detect_blink (frameEars : List (Option ℚ)) : Bool × BlinkDetails :=
  let ear_values := frameEars.filterMap id
  if ear_values.length < 5 then
    (false, .failure "Not enough frames to detect blink")
  else
    let b := detect_blink_pattern ear_values
    (b, .stats ear_values (listMin ear_values) (listMax ear_values) b)

/-- Concrete detector for exercising the liveness aggregation: blink
passes, the movement pipeline raises, per-frame photo analysis passes. -/
def sampleDetector : Detector :=
  ⟨fun _ => .ok true, fun _ => .error "boom", fun _ => .ok true⟩

/-- Synthetic EAR series of testable property 8: six valid frames that
dip below 0.25 and recover. -/
def blinkSeries : List (Option ℚ) :=
  [some 0.35, some 0.35, some 0.20, some 0.20, some 0.35, some 0.35]

/-- Flat synthetic EAR series of testable property 8 (0.35 in all six
frames). -/
def flatSeries : List (Option ℚ) :=
  [some 0.35, some 0.35, some 0.35, some 0.35, some 0.35, some 0.35]

/-! ## Quality validator (`biometric_utils.validate_face_quality`)

Decoding and the vision measurements are external; the embedding takes
the decode outcome (`Except` models the exception of
`load_image_from_file`) carrying the detected face boxes, the Laplacian
variance and the mean brightness of the decoded image. -/

/-- A detected face bounding box `(top, right, bottom, left)`. -/
structure Face where
  top : ℤ
  right : ℤ
  bottom : ℤ
  left : ℤ
deriving Repr, DecidableEq

/-- The measurements of a successfully decoded image. -/
structure ImageProps where
  faces : List Face
  laplacian_var : ℚ
  brightness : ℚ
deriving Repr

/-- Embedding of `validate_face_quality(image_file, blur_threshold)`.
The whole body runs under `try/except Exception`, so a decode failure is
returned as `(False, ['Quality validation failed: ...'])` rather than
raised. Zero or multiple detected faces return immediately with a single
issue; with exactly one face the size, blur and brightness issues are
accumulated (the interpolated numeric payloads of the Python messages are
elided) and `is_valid = (len(issues) == 0)`. `min_size` is the configured
`MIN_FACE_SIZE` (default `(100, 100)`). -/
def validate_face_quality (decoded : Except String ImageProps)
    (blur_threshold : ℚ) (min_size : ℤ × ℤ) : Bool × List String :=
  match decoded with
  | .error e => (false, ["Quality validation failed: " ++ e])
  | .ok image =>
    match image.faces with
    | [] => (false, ["No face detected"])
    | f :: rest =>
      if rest.length ≠ 0 then (false, ["Multiple faces detected"])
      else
        let face_width := f.right - f.left
        let face_height := f.bottom - f.top
        let issues1 :=
          if face_width < min_size.1 ∨ face_height < min_size.2 then
            ["Face too small"]
          else []
        let issues2 := issues1 ++
          (if image.laplacian_var < blur_threshold then ["Image is too blurry"] else [])
        let issues3 := issues2 ++
          (if image.brightness < 30 then ["Image is too dark"]
           else if image.brightness > 220 then ["Image is too bright"]
           else [])
        (issues3.isEmpty, issues3)

/-- Concrete decoded image for exercising the quality validator: one
50 x 50 face, Laplacian variance 40, brightness 25. -/
def img0 : ImageProps :=
  ⟨[⟨0, 50, 50, 0⟩], 40, 25⟩

/-- Enrolled population of the two identifier scenarios. -/
def users3 : List ℕ := [0, 1, 2]

/-- Distances of the ambiguous identifier scenario: 0.40, 0.45, 0.90. -/
def distA : ℕ → ℚ :=
  fun u => if u = 0 then 0.40 else if u = 1 then 0.45 else 0.90

/-- Distances of the clear-win identifier scenario: 0.30, 0.55, 0.90. -/
def distB : ℕ → ℚ :=
  fun u => if u = 0 then 0.30 else if u = 1 then 0.55 else 0.90

/-! # Theorems -/

/-- C7: for every non-negative enrolled count n, the adaptive threshold is
exactly 0.6 for n < 10, 0.55 for 10 <= n < 100, 0.5 for 100 <= n < 1000
and 0.45 for n >= 1000, and it is monotonically non-increasing in n. -/
theorem adaptive_threshold_steps_and_monotone :
    (∀ n : ℕ, n < 10 → get_adaptive_threshold n = 0.6) ∧
    (∀ n : ℕ, 10 ≤ n → n < 100 → get_adaptive_threshold n = 0.55) ∧
    (∀ n : ℕ, 100 ≤ n → n < 1000 → get_adaptive_threshold n = 0.5) ∧
    (∀ n : ℕ, 1000 ≤ n → get_adaptive_threshold n = 0.45) ∧
    (∀ m n : ℕ, m ≤ n → get_adaptive_threshold n ≤ get_adaptive_threshold m) := by
  refine ⟨?_, ?_, ?_, ?_, ?_⟩
  · intro n h
    simp only [get_adaptive_threshold]
    split_ifs <;> first | rfl | omega
  · intro n h1 h2
    simp only [get_adaptive_threshold]
    split_ifs <;> first | rfl | omega
  · intro n h1 h2
    simp only [get_adaptive_threshold]
    split_ifs <;> first | rfl | omega
  · intro n h
    simp only [get_adaptive_threshold]
    split_ifs <;> first | rfl | omega
  · intro m n h
    simp only [get_adaptive_threshold]
    split_ifs <;> first | omega | norm_num

/-- Witness for C7: the four step values at 5, 50, 500, 5000 and one
monotonicity instance across a breakpoint. -/
theorem adaptive_threshold_steps_and_monotone_witness :
    get_adaptive_threshold 5 = 0.6 ∧ get_adaptive_threshold 50 = 0.55 ∧
    get_adaptive_threshold 500 = 0.5 ∧ get_adaptive_threshold 5000 = 0.45 ∧
    get_adaptive_threshold 1000 ≤ get_adaptive_threshold 10 :=
  ⟨adaptive_threshold_steps_and_monotone.1 5 (by norm_num),
   adaptive_threshold_steps_and_monotone.2.1 50 (by norm_num) (by norm_num),
   adaptive_threshold_steps_and_monotone.2.2.1 500 (by norm_num) (by norm_num),
   adaptive_threshold_steps_and_monotone.2.2.2.1 5000 (by norm_num),
   adaptive_threshold_steps_and_monotone.2.2.2.2 10 1000 (by norm_num)⟩

/-- C9: for every 128-dimension embedding v,
json_to_encoding (encoding_to_json v) equals v exactly, so dimension and
element order are preserved. -/
theorem encoding_codec_roundtrip (v : NDArray)
    (h : (encoding_to_json v).length = 128) :
    json_to_encoding (encoding_to_json v) = v := by
  cases v
  rfl

/-- Witness for C9: the round trip on a concrete 128-dimension embedding. -/
theorem encoding_codec_roundtrip_witness :
    (encoding_to_json ⟨List.replicate 128 (0 : ℚ)⟩).length = 128 ∧
    json_to_encoding (encoding_to_json ⟨List.replicate 128 (0 : ℚ)⟩) =
      ⟨List.replicate 128 (0 : ℚ)⟩ :=
  ⟨by simp [encoding_to_json],
   encoding_codec_roundtrip ⟨List.replicate 128 (0 : ℚ)⟩ (by simp [encoding_to_json])⟩

/-- C10: with require_blink, require_movement and check_photo_attack all
false there is no required check, and the liveness verification returns
is_live = true with confidence = 1.0 for every frame sequence and every
detector, recording no check entry. -/
theorem liveness_zero_required_vacuous (frames : List ℕ) (d : Detector) :
    perform_liveness_verification frames false false false d =
      ⟨true, 1, none, none, none, none⟩ :=
  rfl

/-- Counterexample to C1: a profile created by registration with a
successful match (verified and enabled, satisfying the invariant) is
rejected by staff; the staff update clears is_face_verified but leaves
face_recognition_enabled set, so the reachable resulting profile has
face_recognition_enabled true with is_face_verified false, violating the
invariant. -/
theorem face_flag_invariant_counterexample :
    (register_profile true).face_recognition_enabled = true ∧
    (register_profile true).is_face_verified = true ∧
    (apply_op (.staffVerify false) (register_profile true)).face_recognition_enabled
      = true ∧
    (apply_op (.staffVerify false) (register_profile true)).is_face_verified = false := by
  decide

/-- C1 amended: no mutation ever sets face_recognition_enabled to true on
an unverified profile: registration enables only together with
verification, and any operation that turns face_recognition_enabled from
false to true leaves the profile verified. (Staff rejection can still
leave an already-enabled profile unverified, as the counterexample shows.) -/
theorem no_mutation_enables_unverified :
    (∀ m : Bool, (register_profile m).face_recognition_enabled = true →
        (register_profile m).is_face_verified = true) ∧
    (∀ (p : BiometricProfile) (op : ProfileOp),
        (apply_op op p).face_recognition_enabled = true →
        p.face_recognition_enabled = true ∨ (apply_op op p).is_face_verified = true) := by
  constructor
  · intro m h
    exact h
  · intro p op
    rcases p with ⟨fv, fe⟩
    rcases op with e | a
    · cases e <;> cases fv <;> cases fe <;> decide
    · cases a <;> cases fv <;> cases fe <;> decide

/-- Witness for C1 amended: enabling a verified, not yet enabled profile
turns the flag on and the result is verified. -/
theorem no_mutation_enables_unverified_witness :
    (⟨true, false⟩ : BiometricProfile).face_recognition_enabled = true ∨
    (apply_op (.toggle true) ⟨true, false⟩).is_face_verified = true :=
  no_mutation_enables_unverified.2 ⟨true, false⟩ (.toggle true) (by decide)

/-- C6: over an EAR series with at least 5 valid frames, blink detection
returns detected = true iff the EAR spread is at least 0.05 and the series
EAR < 0.25 has at least 2 transitions; with fewer than 5 valid frames it
returns false together with an explicit error detail. -/
theorem detect_blink_spec (frameEars : List (Option ℚ)) :
    (5 ≤ (frameEars.filterMap id).length →
      ((detect_blink frameEars).1 = true ↔
        (0.05 ≤ listMax (frameEars.filterMap id) - listMin (frameEars.filterMap id) ∧
         2 ≤ countTransitions ((frameEars.filterMap id).map
            (fun e => if e < (0.25 : ℚ) then true else false))))) ∧
    ((frameEars.filterMap id).length < 5 →
      detect_blink frameEars = (false, .failure "Not enough frames to detect blink")) := by
  constructor
  · intro h5
    have hn : ¬ (frameEars.filterMap id).length < 5 := not_lt.mpr h5
    simp only [detect_blink, if_neg hn, detect_blink_pattern]
    by_cases hc :
        listMax (frameEars.filterMap id) - listMin (frameEars.filterMap id) < 0.05
    · rw [if_pos hc]
      simp [not_le.mpr hc]
    · rw [if_neg hc]
      simp [not_lt.mp hc]
  · intro h5
    simp [detect_blink, if_pos h5]

/-- Witness for C6: the dipping series [0.35,0.35,0.20,0.20,0.35,0.35]
detects a blink, the flat series [0.35,...,0.35] does not. -/
theorem detect_blink_spec_witness :
    (detect_blink blinkSeries).1 = true ∧ (detect_blink flatSeries).1 = false := by
  have hears : blinkSeries.filterMap id = [0.35, 0.35, 0.20, 0.20, 0.35, 0.35] := by
    simp [blinkSeries]
  have hf : flatSeries.filterMap id = [0.35, 0.35, 0.35, 0.35, 0.35, 0.35] := by
    simp [flatSeries]
  constructor
  · refine ((detect_blink_spec blinkSeries).1 (by rw [hears]; norm_num)).mpr ⟨?_, ?_⟩
    · rw [hears]
      norm_num [listMax, listMin, max_def, min_def]
    · rw [hears]
      norm_num [countTransitions, List.countP_cons]
  · have h := (detect_blink_spec flatSeries).1 (by rw [hf]; norm_num)
    cases hv : (detect_blink flatSeries).1
    · rfl
    · exfalso
      have hrhs := h.mp hv
      rw [hf] at hrhs
      have hd := hrhs.1
      norm_num [listMax, listMin, max_def, min_def] at hd

/-- A passed count over a positive total equals confidence 1 exactly when
every required check passed. -/
theorem nat_eq_iff_cast_div_one (p t : ℕ) [NeZero t] :
    (p = t) ↔ ((p : ℚ) / (t : ℚ) = 1) := by
  have ht : (t : ℚ) ≠ 0 := Nat.cast_ne_zero.mpr (NeZero.ne t)
  rw [div_eq_one_iff_eq ht]
  exact ⟨fun h => by exact_mod_cast h, fun h => by exact_mod_cast h⟩

/-- C5: the liveness check always returns a composite result whose
recorded checks are exactly the required ones, whose confidence is the
fraction of recorded required checks that passed (1.0 when no check is
required), whose is_live is true iff the confidence is 1.0, in which any
per-check pipeline error is recorded as passed = false with the error
detail, and whose top-level error field is never set (the function
returns instead of raising). -/
theorem liveness_aggregation (frames : List ℕ) (rb rm cp : Bool) (d : Detector)
    (r : LivenessResult)
    (hr : r = perform_liveness_verification frames rb rm cp d) :
    (r.blink.isSome = rb ∧ r.movement.isSome = rm ∧ r.photo_attack.isSome = cp) ∧
    (0 < r.totalRequired →
      r.confidence = (r.passedRequired : ℚ) / (r.totalRequired : ℚ)) ∧
    (r.totalRequired = 0 → r.confidence = 1) ∧
    (r.is_live = true ↔ r.confidence = 1) ∧
    (rb = true → ∀ e, d.detect_blink frames = .error e →
      r.blink = some ⟨false, some e⟩) ∧
    (rm = true → ∀ e, d.detect_head_movement frames = .error e →
      r.movement = some ⟨false, some e⟩) ∧
    (cp = true → ∀ e, photo_attack_vote d.detect_photo_attack frames = .error e →
      r.photo_attack = some ⟨false, some e⟩) ∧
    r.errorMsg = none := by
  subst hr
  cases rb <;> cases rm <;> cases cp <;>
    refine ⟨⟨?_, ?_, ?_⟩, ?_, ?_, ?_, ?_, ?_, ?_, ?_⟩ <;>
      first
        | (intro h e he
           simp_all [perform_liveness_verification, runCheck])
        | (simp [perform_liveness_verification, LivenessResult.entries,
             LivenessResult.totalRequired, LivenessResult.passedRequired]
           rw [nat_eq_iff_cast_div_one]
           norm_num)
        | simp [perform_liveness_verification, LivenessResult.entries,
            LivenessResult.totalRequired, LivenessResult.passedRequired]

/-- Witness for C5: with all three checks required and a movement
pipeline that raises, the failure is recorded in the movement entry, the
confidence is the passed fraction, is_live is equivalent to confidence 1,
and no exception escapes. -/
theorem liveness_aggregation_witness :
    (perform_liveness_verification [0, 1, 2, 3, 4] true true true sampleDetector).movement
      = some ⟨false, some "boom"⟩ ∧
    ((perform_liveness_verification [0, 1, 2, 3, 4] true true true sampleDetector).is_live
        = true ↔
      (perform_liveness_verification [0, 1, 2, 3, 4] true true true sampleDetector).confidence
        = 1) ∧
    (perform_liveness_verification [0, 1, 2, 3, 4] true true true sampleDetector).confidence
      = ((perform_liveness_verification [0, 1, 2, 3, 4] true true true
            sampleDetector).passedRequired : ℚ) /
        ((perform_liveness_verification [0, 1, 2, 3, 4] true true true
            sampleDetector).totalRequired : ℚ) ∧
    (perform_liveness_verification [0, 1, 2, 3, 4] true true true sampleDetector).errorMsg
      = none := by
  have h := liveness_aggregation [0, 1, 2, 3, 4] true true true sampleDetector _ rfl
  exact ⟨h.2.2.2.2.2.1 rfl "boom" rfl, h.2.2.2.1, h.2.1 (by decide), h.2.2.2.2.2.2.2⟩

/-- Counterexample to C8: an image that cannot be decoded does not raise;
the validator catches the decode failure and returns it as a regular
invalid result with a single issue string. -/
theorem validate_face_quality_counterexample :
    validate_face_quality (.error "cannot identify image file") 100 (100, 100) =
      (false, ["Quality validation failed: cannot identify image file"]) :=
  rfl

/-- C8 amended: the quality validator never raises; a decode failure is
returned as an invalid result with a single issue; for a decodable image
with exactly one face, the size, blur and brightness failures are all
accumulated as issue strings; and is_valid is true iff the issue list is
empty. -/
theorem validate_face_quality_spec (decoded : Except String ImageProps)
    (blur_threshold : ℚ) (min_size : ℤ × ℤ) :
    ((validate_face_quality decoded blur_threshold min_size).1 = true ↔
      (validate_face_quality decoded blur_threshold min_size).2 = []) ∧
    (∀ e, decoded = .error e →
      validate_face_quality decoded blur_threshold min_size =
        (false, ["Quality validation failed: " ++ e])) ∧
    (∀ img f, decoded = .ok img → img.faces = [f] →
      (("Face too small" ∈ (validate_face_quality decoded blur_threshold min_size).2 ↔
          (f.right - f.left < min_size.1 ∨ f.bottom - f.top < min_size.2)) ∧
       ("Image is too blurry" ∈ (validate_face_quality decoded blur_threshold min_size).2 ↔
          img.laplacian_var < blur_threshold) ∧
       ("Image is too dark" ∈ (validate_face_quality decoded blur_threshold min_size).2 ↔
          img.brightness < 30) ∧
       ("Image is too bright" ∈ (validate_face_quality decoded blur_threshold min_size).2 ↔
          220 < img.brightness))) := by
  refine ⟨?_, ?_, ?_⟩
  · rcases decoded with e | img
    · simp [validate_face_quality]
    · rcases hf : img.faces with _ | ⟨f, rest⟩
      · simp [validate_face_quality, hf]
      · rcases rest with _ | ⟨g, rest2⟩
        · simp only [validate_face_quality, hf]
          split_ifs <;> simp_all [List.isEmpty_iff]
        · simp [validate_face_quality, hf]
  · intro e he
    subst he
    rfl
  · intro img f hok hf
    subst hok
    simp only [validate_face_quality, hf]
    refine ⟨?_, ?_, ?_, ?_⟩ <;>
      · split_ifs <;> simp_all <;> linarith

/-- Witness for C8: the validator catches a decode failure, and on a
decodable one-face image that is too blurry the blur issue is present iff
the variance is below the threshold. -/
theorem validate_face_quality_spec_witness :
    validate_face_quality (.error "bad") 100 (100, 100) =
      (false, ["Quality validation failed: bad"]) ∧
    ("Image is too blurry" ∈ (validate_face_quality (.ok img0) 100 (100, 100)).2 ↔
      img0.laplacian_var < 100) :=
  ⟨(validate_face_quality_spec (.error "bad") 100 (100, 100)).2.1 "bad" rfl,
   ((validate_face_quality_spec (.ok img0) 100 (100, 100)).2.2 img0 ⟨0, 50, 50, 0⟩
      rfl rfl).2.1⟩

/-- Membership is invariant under the distance sort. -/
theorem mem_sortMatches {l : List MatchEntry} {a : MatchEntry} :
    a ∈ sortMatches l ↔ a ∈ l :=
  (List.perm_insertionSort _ l).mem_iff

/-- The distance sort preserves length. -/
theorem length_sortMatches (l : List MatchEntry) :
    (sortMatches l).length = l.length :=
  (List.perm_insertionSort _ l).length_eq

/-- The distance sort produces an ascending list. -/
theorem sortMatches_sorted (l : List MatchEntry) :
    List.Sorted (fun a b : MatchEntry => a.distance ≤ b.distance) (sortMatches l) :=
  List.sorted_insertionSort _ l

/-- Every entry of the match list carries
is_match = (distance <= tolerance). -/
theorem mkMatches_is_match {dist : ℕ → ℚ} {users : List ℕ} {tol : ℚ}
    {e : MatchEntry} (he : e ∈ mkMatches dist users tol) :
    e.is_match = if e.distance ≤ tol then true else false := by
  simp only [mkMatches, List.mem_map] at he
  obtain ⟨u, _, rfl⟩ := he
  rfl

/-- C3: whenever the best sorted candidate is within the tolerance, the
identifier returns ambiguous (no user, best distance, top-3) when a
second candidate lies within 0.1 of the best, and success (best user,
best distance, top-3) otherwise. -/
theorem identify_margin_decision (dist : ℕ → ℚ) (users : List ℕ) (t : ℚ)
    (b : MatchEntry) (rest : List MatchEntry)
    (hs : sortMatches (mkMatches dist users t) = b :: rest)
    (hb : b.distance ≤ t) :
    (∀ s r2, rest = s :: r2 → s.distance < b.distance + 0.1 →
      identify_user_by_face dist users t = (none, b.distance, (b :: rest).take 3)) ∧
    (∀ s r2, rest = s :: r2 → ¬ s.distance < b.distance + 0.1 →
      identify_user_by_face dist users t =
        (some b.user, b.distance, (b :: rest).take 3)) ∧
    (rest = [] →
      identify_user_by_face dist users t = (some b.user, b.distance, [b])) := by
  have hbm : b.is_match = true := by
    have hmem : b ∈ mkMatches dist users t :=
      mem_sortMatches.mp (hs ▸ List.mem_cons_self b rest)
    rw [mkMatches_is_match hmem, if_pos hb]
  refine ⟨?_, ?_, ?_⟩
  · intro s r2 hr hlt
    subst hr
    simp only [identify_user_by_face, hs, hbm, if_true]
    rw [if_pos hlt]
  · intro s r2 hr hge
    subst hr
    simp only [identify_user_by_face, hs, hbm, if_true]
    rw [if_neg hge]
  · intro hr
    subst hr
    simp only [identify_user_by_face, hs, hbm, if_true]
    rfl

/-- Witness for C3: distances 0.40, 0.45, 0.90 at threshold 0.6 are
ambiguous (0.45 < 0.40 + 0.1) and return no user with the top-3
candidates; distances 0.30, 0.55, 0.90 are a clear win for the 0.30
candidate (0.55 is not within 0.1 of 0.30). -/
theorem identify_margin_decision_witness :
    identify_user_by_face distA users3 0.6 =
      (none, 0.40, [⟨0, 0.40, true⟩, ⟨1, 0.45, true⟩, ⟨2, 0.90, false⟩]) ∧
    identify_user_by_face distB users3 0.6 =
      (some 0, 0.30, [⟨0, 0.30, true⟩, ⟨1, 0.55, true⟩, ⟨2, 0.90, false⟩]) := by
  constructor
  · have hs : sortMatches (mkMatches distA users3 0.6) =
        (⟨0, 0.40, true⟩ : MatchEntry) :: [⟨1, 0.45, true⟩, ⟨2, 0.90, false⟩] := by
      norm_num [sortMatches, mkMatches, users3, distA,
        List.insertionSort, List.orderedInsert]
    have h := (identify_margin_decision distA users3 0.6 _ _ hs (by norm_num)).1
      ⟨1, 0.45, true⟩ [⟨2, 0.90, false⟩] rfl (by norm_num)
    simpa using h
  · have hs : sortMatches (mkMatches distB users3 0.6) =
        (⟨0, 0.30, true⟩ : MatchEntry) :: [⟨1, 0.55, true⟩, ⟨2, 0.90, false⟩] := by
      norm_num [sortMatches, mkMatches, users3, distB,
        List.insertionSort, List.orderedInsert]
    have h := (identify_margin_decision distB users3 0.6 _ _ hs (by norm_num)).2.1
      ⟨1, 0.55, true⟩ [⟨2, 0.90, false⟩] rfl (by norm_num)
    simpa using h

/-- Counterexample to C2: with ten enrolled users the active threshold is
0.55; every distance of the probe exceeds it (a NO_MATCH outcome of the
identifier), yet the view treats the result as ambiguous because the two
best distances lie below its hard-coded 0.6 cut, and a session entry is
stored. -/
theorem identify_view_no_match_counterexample :
    (users10.all fun u =>
      if get_adaptive_threshold users10.length < dist10 u then true else false) = true ∧
    mintsToken (identify_face_view dist10 users10) = true := by
  constructor
  · norm_num [users10, dist10, get_adaptive_threshold]
  · norm_num [identify_face_view, identify_user_by_face, mintsToken, users10, dist10,
      get_adaptive_threshold, mkMatches, sortMatches, List.insertionSort,
      List.orderedInsert]

/-- C2 amended: on a NO_MATCH outcome (every enrolled distance above the
active adaptive threshold) the identify endpoint stores a session entry
iff at least two users are enrolled and some distance is below the
hard-coded 0.6; in particular no token is minted whenever every distance
is at least 0.6, and never when fewer than two users are enrolled. -/
theorem identify_view_no_match_mint (dist : ℕ → ℚ) (users : List ℕ)
    (h : ∀ u ∈ users, get_adaptive_threshold users.length < dist u) :
    mintsToken (identify_face_view dist users) = true ↔
      (2 ≤ users.length ∧ ∃ u ∈ users, dist u < 0.6) := by
  simp only [identify_face_view]
  set t := get_adaptive_threshold users.length with ht
  have hentry : ∀ e ∈ mkMatches dist users t,
      e.is_match = false ∧ t < e.distance ∧ e.user ∈ users ∧ dist e.user = e.distance := by
    intro e he
    simp only [mkMatches, List.mem_map] at he
    obtain ⟨u, hu, rfl⟩ := he
    exact ⟨by simp [not_le.mpr (h u hu)], h u hu, hu, rfl⟩
  have hlen : (sortMatches (mkMatches dist users t)).length = users.length := by
    rw [length_sortMatches]
    simp [mkMatches]
  rcases hs : sortMatches (mkMatches dist users t) with _ | ⟨b, rest⟩
  · have h0 : users.length = 0 := by rw [← hlen, hs]; rfl
    simp [identify_user_by_face, hs, mintsToken, h0]
  · obtain ⟨hbm, hbt, hbu, hbd⟩ := hentry b (mem_sortMatches.mp
      (hs ▸ List.mem_cons_self b rest))
    have hid : identify_user_by_face dist users t =
        (none, b.distance, ((b :: rest).take 3)) := by
      simp [identify_user_by_face, hs, hbm]
    rcases rest with _ | ⟨c, r2⟩
    · have h1 : users.length = 1 := by rw [← hlen, hs]; rfl
      simp [hid, mintsToken, h1]
    · have h2 : 2 ≤ users.length := by
        rw [← hlen, hs]
        simp only [List.length_cons]
        omega
      have hmin : ∀ u ∈ users, b.distance ≤ dist u := by
        intro u hu
        have he : (⟨u, dist u, if dist u ≤ t then true else false⟩ : MatchEntry) ∈
            mkMatches dist users t := by
          simp only [mkMatches, List.mem_map]
          exact ⟨u, hu, rfl⟩
        have hes := mem_sortMatches.mpr he
        rw [hs] at hes
        rcases List.mem_cons.mp hes with heq | hrest
        · exact le_of_eq (by rw [← heq])
        · have hsorted := sortMatches_sorted (mkMatches dist users t)
          rw [hs] at hsorted
          simpa using (List.sorted_cons.mp hsorted).1 _ hrest
      by_cases hb6 : b.distance < 0.6
      · simp only [hid, List.take_succ_cons, if_pos hb6, mintsToken]
        exact ⟨fun _ => ⟨h2, b.user, hbu, hbd ▸ hb6⟩, fun _ => trivial⟩
      · simp only [hid, List.take_succ_cons, if_neg hb6, mintsToken]
        constructor
        · intro hfalse
          exact Bool.noConfusion hfalse
        · rintro ⟨-, u, hu, hlt⟩
          exact absurd (lt_of_le_of_lt (hmin u hu) hlt) hb6

/-- Witness for C2 amended: on the ten-user NO_MATCH population with best
distances 0.58 and 0.59, the endpoint does store a session entry. -/
theorem identify_view_no_match_mint_witness :
    mintsToken (identify_face_view dist10 users10) = true := by
  have h := identify_view_no_match_mint dist10 users10 (by
    intro u hu
    fin_cases hu <;> norm_num [dist10, users10, get_adaptive_threshold])
  exact h.mpr ⟨by norm_num [users10], ⟨0, by norm_num [users10], by norm_num [dist10]⟩⟩

/-- C4: confirm with an absent token, or with one whose stored expiry is
past, answers SessionExpired (deleting the stale entry in the second
case); any confirm that reaches the rejected or success outcome deletes
the session entry, so every further confirm with the same token answers
SessionExpired; and a token minted at t0 is expired when confirmed at
t0 + 61 (its stored expiry is t0 + 60). -/
theorem confirm_session_spec (store : Store) (now : ℚ) (token user_id : ℕ)
    (confirmed : Bool) (ue ua : ℕ → Bool) :
    (store token = none →
      confirm_identity_view store now token user_id confirmed ue ua =
        (.sessionExpired, store)) ∧
    (∀ sd, store token = some sd → sd.expiresAt < now →
      confirm_identity_view store now token user_id confirmed ue ua =
        (.sessionExpired, cacheDelete store token)) ∧
    (∀ resp store2,
      confirm_identity_view store now token user_id confirmed ue ua = (resp, store2) →
      (resp = .rejected ∨ resp = .success) →
      store2 token = none ∧
      ∀ (now2 : ℚ) (uid2 : ℕ) (c2 : Bool) (ue2 ua2 : ℕ → Bool),
        (confirm_identity_view store2 now2 token uid2 c2 ue2 ua2).1 = .sessionExpired) ∧
    (∀ (uid0 : ℕ) (conf t0 : ℚ),
      (confirm_identity_view (mint_single store token uid0 conf t0) (t0 + 61) token
          user_id confirmed ue ua).1 = .sessionExpired) := by
  refine ⟨?_, ?_, ?_, ?_⟩
  · intro hn
    simp [confirm_identity_view, hn]
  · intro sd hsd hexp
    simp [confirm_identity_view, hsd, if_pos hexp]
  · intro resp store2 heq hor
    have hdel : (cacheDelete store token) token = none := by simp [cacheDelete]
    have hexp2 : ∀ (now2 : ℚ) (uid2 : ℕ) (c2 : Bool) (ue2 ua2 : ℕ → Bool),
        (confirm_identity_view (cacheDelete store token) now2 token uid2 c2 ue2 ua2).1 =
          .sessionExpired := by
      intro now2 uid2 c2 ue2 ua2
      simp [confirm_identity_view, hdel]
    suffices hst2 : store2 = cacheDelete store token by
      subst hst2
      exact ⟨hdel, hexp2⟩
    rcases hst : store token with _ | sd
    · simp only [confirm_identity_view, hst] at heq
      injection heq with h1 h2
      subst h1
      rcases hor with h | h <;> simp_all
    · rcases sd with ⟨uid, cf, ex⟩ | ⟨cands, ex⟩ <;>
        simp only [confirm_identity_view, hst, SessionData.expiresAt] at heq <;>
        split_ifs at heq <;>
        injection heq with h1 h2 <;>
        subst h1 <;>
        first
          | exact h2.symm
          | (rcases hor with h | h <;> simp_all)
  · intro uid0 conf t0
    have hl : (mint_single store token uid0 conf t0) token =
        some (.single uid0 conf (t0 + 60)) := by
      simp [mint_single, cacheSet]
    simp only [confirm_identity_view, hl, SessionData.expiresAt]
    rw [if_pos (by linarith)]

/-- Witness for C4: on an empty store, confirm answers SessionExpired;
a token minted at time 0 and confirmed at time 0 + 61 answers
SessionExpired; and after a confirm that reaches the success outcome the
entry is gone and a second confirm answers SessionExpired. -/
theorem confirm_session_spec_witness :
    (confirm_identity_view (fun _ => none) 0 7 3 true (fun _ => true) (fun _ => true) =
      (.sessionExpired, fun _ => none)) ∧
    ((confirm_identity_view (mint_single (fun _ => none) 7 3 0.9 0) (0 + 61) 7 3 true
        (fun _ => true) (fun _ => true)).1 = .sessionExpired) ∧
    ((confirm_identity_view (mint_single (fun _ => none) 7 3 0.9 0) 5 7 3 true
        (fun _ => true) (fun _ => true)).2 7 = none ∧
      (confirm_identity_view
          ((confirm_identity_view (mint_single (fun _ => none) 7 3 0.9 0) 5 7 3 true
            (fun _ => true) (fun _ => true)).2) 6 7 3 true
          (fun _ => true) (fun _ => true)).1 = .sessionExpired) := by
  refine ⟨?_, ?_, ?_⟩
  · exact (confirm_session_spec (fun _ => none) 0 7 3 true (fun _ => true)
      (fun _ => true)).1 rfl
  · exact (confirm_session_spec (fun _ => none) (0 + 61) 7 3 true (fun _ => true)
      (fun _ => true)).2.2.2 3 0.9 0
  · have h3 := (confirm_session_spec (mint_single (fun _ => none) 7 3 0.9 0) 5 7 3 true
      (fun _ => true) (fun _ => true)).2.2.1
      ((confirm_identity_view (mint_single (fun _ => none) 7 3 0.9 0) 5 7 3 true
        (fun _ => true) (fun _ => true)).1)
      ((confirm_identity_view (mint_single (fun _ => none) 7 3 0.9 0) 5 7 3 true
        (fun _ => true) (fun _ => true)).2)
      rfl
      (Or.inr (by norm_num [confirm_identity_view, mint_single, cacheSet,
        SessionData.expiresAt]))
    exact ⟨h3.1, h3.2 6 3 true (fun _ => true) (fun _ => true)⟩

end LifeX
